import Mathlib

/-!
Shallow embedding of the Black Duck instance lifecycle orchestrator
(`src/pkg/blackduck/creater.go`, package `blackduck`).

External collaborators (the Kubernetes/OpenShift API, the horizon batch
deployer, the synopsys-operator utility packages) are modelled by an
environment record `Env` whose fields give the outcome of each external
call; calls that the source code repeats over time (service lookups,
namespace lookups, password fetches) are indexed by the attempt number.
Each embedded function returns its Go result together with a trace of the
externally visible actions it attempted (`List Effect`), in the order the
source performs them.
-/

deriving instance DecidableEq for Except

namespace BlackduckModel

/-- A resolved resource-sizing profile.
Modelled from the spec: the Flavor Resolver maps a size tag to
"replica counts, CPU/memory requests"; only its presence or absence is
observed by the orchestrator, so the profile is represented by the tag it
was resolved from.  (`containers.GetContainersFlavor` lives in the
resource-builder package, which is not under `src/`.) -/
structure FlavorProfile where
  size : String
  deriving DecidableEq

/-- One PVC descriptor of the instance spec; the orchestrator reads only the
claim name (`v.Name` in `CreateHub`). -/
structure PVC where
  name : String
  deriving DecidableEq

/-- The instance spec (`v1.BlackduckSpec`), restricted to the fields the
orchestrator reads: `Namespace`, `Size`, `PersistentStorage`, `PVC`,
`ExternalPostgres` (only its nil-ness is tested), `State`, `DbPrototype`. -/
structure BlackduckSpec where
  ns : String
  size : String
  persistentStorage : Bool
  pvc : List PVC
  externalPostgres : Option Unit
  state : String
  dbPrototype : String
  deriving DecidableEq

/-- The observed state of a Kubernetes service: the load-balancer ingress IPs
(`Status.LoadBalancer.Ingress[..].IP`) and the cluster IP (`Spec.ClusterIP`). -/
structure ServiceStatus where
  loadBalancerIngressIPs : List String
  clusterIP : String
  deriving DecidableEq

/-- An OpenShift route; the orchestrator reads `Spec.Host`. -/
structure RouteObj where
  host : String
  deriving DecidableEq

/-- A namespace object; `DeleteHub` reads `Status` for logging only. -/
structure NamespaceObj where
  statusPhase : String
  deriving DecidableEq

/-- The distinct manifest batches the orchestrator hands to a horizon
deployer: the batch built by `hc.init` (config maps, secrets, postgres
bootstrap container), the exposure batch (`AddExposeServices`), and the
three batches of `Start`/`Stop` (`getHubConfigDeployer`,
`getPostgresDeployer`, `getHubDeployer`). -/
inductive Batch where
  | initConfig
  | expose
  | hubConfig
  | postgres
  | hub
  deriving DecidableEq

/-- Externally visible actions, recorded in source order. -/
inductive Effect where
  | run (b : Batch)
  | undeploy (b : Batch)
  | anyUID
  | passwordsFetch (attempt : Nat)
  | sleepSecs (n : Nat)
  | waitDBEndpoint
  | initDatabaseRun
  | dbPasswordFetch
  | cloneJobRun
  | createRouteCall
  | svcLookup (svcName : String) (attempt : Nat)
  | pvcLookup (claimName : String) (attempt : Nat)
  | podsCheck
  | nsGetInitial
  | nsDelete
  | nsGet (attempt : Nat)
  | statusRead (valuePresent : Bool)
  | pvDelete
  | crbDelete
  deriving DecidableEq

/-- The quadruple returned by `CreateHub`: endpoint address, PVC volume-name
map (association list in PVC order; Go's nil map is `[]`), the fatal flag,
and the error (`none` = Go `nil`). -/
structure CreateResult where
  endpoint : String
  pvcVolumeNames : List (String × String)
  fatal : Bool
  err : Option String
  deriving DecidableEq

/-- Outcomes of every external call the orchestrator makes.  Calls the source
repeats in polling loops take the attempt index.  Namespace lookups mirror
Go's `(*corev1.Namespace, error)` pair: the object may be absent
independently of the error value. -/
structure Env where
  newDeployer : Except String Unit
  runBatch : Batch → Except String Unit
  undeployBatch : Batch → Except String Unit
  initBuild : Except String Unit
  validatePodsRunning : Except String Unit
  getPVC : String → Nat → Except String String
  routeClientConfigured : Bool
  createRoute : Except String RouteObj
  getService : String → Nat → Except String ServiceStatus
  getDefaultPasswords : Nat → Except String (String × String × String)
  waitForServiceEndpointReady : Except String Unit
  initDatabase : Except String Unit
  getHubDBPassword : Except String String
  cloneJob : Except String Unit
  addAnyUID : Except String Unit
  nsInitial : Option NamespaceObj × Option String
  nsLookup : Nat → Option NamespaceObj × Option String
  deleteNamespace : Except String Unit
  deletePersistentVolume : Except String Unit
  deleteClusterRoleBinding : Except String Unit

/-- Go's `strings.EqualFold`, restricted to the per-character case folding the
orchestrator relies on ("pending", ""): case-insensitive string equality. -/
def eqFold (a b : String) : Bool :=
  a.data.map Char.toLower == b.data.map Char.toLower

/-- Modelled from the spec: the Flavor Resolver
("maps a size tag (`small|medium|large|x-large`) to a resource profile ...
Fails with `ConfigurationError` on unknown size").  The implementation,
`containers.GetContainersFlavor`, is not under `src/`; `nil` is `none`. -/
def GetContainersFlavor (size : String) : Option FlavorProfile :=
  if size = "small" ∨ size = "medium" ∨ size = "large" ∨ size = "x-large" then
    some (FlavorProfile.mk size)
  else
    none

def deployerErrMsg (e : String) : String :=
  "unable to create the horizon deployer because " ++ e

/-- The `ConfigurationError` of the spec: the error text `CreateHub` and the
deployer builders produce when the flavor is unknown. -/
def configurationErrMsg (size : String) : String :=
  "invalid flavor type, Expected: Small, Medium, Large (or) X-Large, Actual: " ++ size

def svcGetErrMsg (svcName ns e : String) : String :=
  "unable to get service " ++ svcName ++ " in " ++ ns ++ " namespace because " ++ e

def svcTimeoutMsg (svcName ns : String) : String :=
  "timeout: unable to get ip address for the service " ++ svcName ++ " in " ++ ns ++ " namespace"

def pvcGetErrMsg (ns e : String) : String :=
  "unable to get pvc in " ++ ns ++ " namespace because " ++ e

/-- Note: the source interpolates the namespace into both `%s` slots. -/
def pvcTimeoutMsg (ns : String) : String :=
  "timeout: unable to get pvc " ++ ns ++ " in " ++ ns ++ " namespace"

/-- The shared shape of `getLoadBalancerIPAddress` and `getNodePortIPAddress`:
up to `fuel` iterations, each sleeping 10 seconds then looking the service up;
a lookup error returns immediately, a present address returns it, otherwise
the next iteration runs; exhaustion yields the timeout error.  The two source
functions instantiate `extract` with their respective address field. -/
def servicePoll (look : Nat → Except String ServiceStatus)
    (extract : ServiceStatus → Option String) (svcName ns : String) :
    Nat → Nat → Except String String × List Effect
  | 0, _ => (Except.error (svcTimeoutMsg svcName ns), [])
  | n + 1, i =>
    let fx := [Effect.sleepSecs 10, Effect.svcLookup svcName i]
    match look i with
    | Except.error e => (Except.error (svcGetErrMsg svcName ns e), fx)
    | Except.ok s =>
      match extract s with
      | some ip => (Except.ok ip, fx)
      | none =>
        let r := servicePoll look extract svcName ns n (i + 1)
        (r.1, fx ++ r.2)

/-- `getLoadBalancerIPAddress`: an address is present when
`len(service.Status.LoadBalancer.Ingress) > 0`; the result is `Ingress[0].IP`. -/
def lbExtract (s : ServiceStatus) : Option String :=
  match s.loadBalancerIngressIPs with
  | [] => none
  | ip :: _ => some ip

/-- `getNodePortIPAddress`: an address is present when
`!strings.EqualFold(service.Spec.ClusterIP, "")`; the result is the cluster IP. -/
def npExtract (s : ServiceStatus) : Option String :=
  if eqFold s.clusterIP ("") then none else some s.clusterIP

/-- `getLoadBalancerIPAddress(namespace, serviceName)`: 10 attempts. -/
def getLoadBalancerIPAddress (env : Env) (ns svcName : String) :
    Except String String × List Effect :=
  servicePoll (env.getService svcName) lbExtract svcName ns 10 0

/-- `getNodePortIPAddress(namespace, serviceName)`: 10 attempts. -/
def getNodePortIPAddress (env : Env) (ns svcName : String) :
    Except String String × List Effect :=
  servicePoll (env.getService svcName) npExtract svcName ns 10 0

/-- The loop body of `getPVCVolumeName`: up to `fuel` iterations, each
sleeping 10 seconds then reading the PVC; a lookup error returns immediately;
a volume name that case-folds to "" continues; otherwise the name is
returned; exhaustion yields the timeout error. -/
def pvcPoll (look : Nat → Except String String) (claimName ns : String) :
    Nat → Nat → Except String String × List Effect
  | 0, _ => (Except.error (pvcTimeoutMsg ns), [])
  | n + 1, i =>
    let fx := [Effect.sleepSecs 10, Effect.pvcLookup claimName i]
    match look i with
    | Except.error e => (Except.error (pvcGetErrMsg ns e), fx)
    | Except.ok vol =>
      if eqFold vol ("") then
        let r := pvcPoll look claimName ns n (i + 1)
        (r.1, fx ++ r.2)
      else
        (Except.ok vol, fx)

/-- `getPVCVolumeName(namespace, name)`: 60 attempts. -/
def getPVCVolumeName (env : Env) (ns claimName : String) :
    Except String String × List Effect :=
  pvcPoll (env.getPVC claimName) claimName ns 60 0

/-- The PVC loop of `CreateHub`: for each declared claim, resolve its volume
name; the first failure aborts the whole of `CreateHub` (discarding the
entries already gathered, as the source returns a nil map there). -/
def resolvePVCList (look : String → Nat → Except String String) (ns : String) :
    List PVC → Except String (List (String × String)) × List Effect
  | [] => (Except.ok [], [])
  | v :: rest =>
    let r := pvcPoll (look v.name) v.name ns 60 0
    match r.1 with
    | Except.error e => (Except.error e, r.2)
    | Except.ok vol =>
      let rr := resolvePVCList look ns rest
      match rr.1 with
      | Except.error e => (Except.error e, r.2 ++ rr.2)
      | Except.ok m => (Except.ok ((v.name, vol) :: m), r.2 ++ rr.2)

/-- Lines 162–171 of `CreateHub`: the PVC volume-name map is resolved only
when persistent storage is enabled. -/
def resolvePVCs (env : Env) (spec : BlackduckSpec) :
    Except String (List (String × String)) × List Effect :=
  if spec.persistentStorage then resolvePVCList env.getPVC spec.ns spec.pvc
  else (Except.ok [], [])

/-- The loop bound of the credential fetch in `initPostgres`:
`math.MaxInt32`. -/
def maxInt32 : Nat := 2147483647

/-- The credential-fetch loop of `initPostgres`
(`for dbInitTry := 0; dbInitTry < math.MaxInt32; dbInitTry++`): fetch the
default passwords; on success break, on failure sleep 5 seconds and retry.
Exhaustion leaves the passwords at their zero values and falls through
without surfacing any error. -/
def credFetch (fetch : Nat → Except String (String × String × String)) :
    Nat → Nat → Option (String × String × String) × List Effect
  | 0, _ => (none, [])
  | n + 1, i =>
    match fetch i with
    | Except.ok p => (some p, [Effect.passwordsFetch i])
    | Except.error _ =>
      let r := credFetch fetch n (i + 1)
      (r.1, Effect.passwordsFetch i :: Effect.sleepSecs 5 :: r.2)

/-- `initPostgres`: fetch bootstrap credentials (bounded only by
`math.MaxInt32`), wait for the `postgres` service endpoint, then either run
first-time database initialization (no `DbPrototype`) or fetch the source
instance's password and run the clone job. -/
def initPostgres (env : Env) (spec : BlackduckSpec) :
    Except String Unit × List Effect :=
  let cred := credFetch env.getDefaultPasswords maxInt32 0
  let fx := cred.2 ++ [Effect.waitDBEndpoint]
  match env.waitForServiceEndpointReady with
  | Except.error e => (Except.error e, fx)
  | Except.ok _ =>
    if spec.dbPrototype = "" then
      match env.initDatabase with
      | Except.error e =>
        (Except.error (spec.ns ++ ": error: " ++ e), fx ++ [Effect.initDatabaseRun])
      | Except.ok _ => (Except.ok (), fx ++ [Effect.initDatabaseRun])
    else
      match env.getHubDBPassword with
      | Except.error e => (Except.error e, fx ++ [Effect.dbPasswordFetch])
      | Except.ok _ =>
        match env.cloneJob with
        | Except.error e =>
          (Except.error e, fx ++ [Effect.dbPasswordFetch, Effect.cloneJobRun])
        | Except.ok _ => (Except.ok (), fx ++ [Effect.dbPasswordFetch, Effect.cloneJobRun])

/-- `getHubConfigDeployer`: builds the config batch (secrets + config maps).
Only deployer construction can fail; the error of the one-shot password fetch
is discarded by the source, and the flavor is passed on unchecked. -/
def getHubConfigDeployer (env : Env) :
    Except String Unit × List Effect :=
  match env.newDeployer with
  | Except.error e => (Except.error (deployerErrMsg e), [])
  | Except.ok _ => (Except.ok (), [])

/-- `getPostgresDeployer`: builds the database batch; fails if deployer
construction fails or the flavor is unknown. -/
def getPostgresDeployer (env : Env) (spec : BlackduckSpec) :
    Except String Unit × List Effect :=
  match env.newDeployer with
  | Except.error e => (Except.error (deployerErrMsg e), [])
  | Except.ok _ =>
    match GetContainersFlavor spec.size with
    | none => (Except.error (configurationErrMsg spec.size), [])
    | some _ => (Except.ok (), [])

/-- `getHubDeployer`: builds the application batch; fails if deployer
construction fails or the flavor is unknown; attempts
`addAnyUIDToServiceAccount` (its error is only logged) before handing the
batch back. -/
def getHubDeployer (env : Env) (spec : BlackduckSpec) :
    Except String Unit × List Effect :=
  match env.newDeployer with
  | Except.error e => (Except.error (deployerErrMsg e), [])
  | Except.ok _ =>
    match GetContainersFlavor spec.size with
    | none => (Except.error (configurationErrMsg spec.size), [])
    | some _ => (Except.ok (), [Effect.anyUID])

/-- `Start`: apply the config batch; if no external database is referenced,
apply the database batch and — when persistent storage is disabled, or it is
enabled and the state case-folds to "pending" — run `initPostgres`; finally
apply the application batch.  Every failure aborts immediately. -/
def Start (env : Env) (spec : BlackduckSpec) : Except String Unit × List Effect :=
  let cfg := getHubConfigDeployer env
  match cfg.1 with
  | Except.error e => (Except.error e, cfg.2)
  | Except.ok _ =>
    let fx0 := cfg.2 ++ [Effect.run Batch.hubConfig]
    match env.runBatch Batch.hubConfig with
    | Except.error e => (Except.error e, fx0)
    | Except.ok _ =>
      match spec.externalPostgres with
      | some _ => startHubSection env spec fx0
      | none =>
        let pg := getPostgresDeployer env spec
        match pg.1 with
        | Except.error e => (Except.error e, fx0 ++ pg.2)
        | Except.ok _ =>
          let fx1 := fx0 ++ pg.2 ++ [Effect.run Batch.postgres]
          match env.runBatch Batch.postgres with
          | Except.error e => (Except.error e, fx1)
          | Except.ok _ =>
            if !spec.persistentStorage ||
                (spec.persistentStorage && eqFold spec.state ("pending")) then
              let ip := initPostgres env spec
              match ip.1 with
              | Except.error e => (Except.error e, fx1 ++ ip.2)
              | Except.ok _ => startHubSection env spec (fx1 ++ ip.2)
            else
              startHubSection env spec fx1
where
  /-- The tail of `Start`: build and apply the application batch. -/
  startHubSection (env : Env) (spec : BlackduckSpec) (fx : List Effect) :
      Except String Unit × List Effect :=
    let hub := getHubDeployer env spec
    match hub.1 with
    | Except.error e => (Except.error e, fx ++ hub.2)
    | Except.ok _ =>
      let fx2 := fx ++ hub.2 ++ [Effect.run Batch.hub]
      (env.runBatch Batch.hub, fx2)

/-- `Stop`: undeploy the application batch; if no external database is
referenced, undeploy the database batch; undeploy the config batch.  Every
failure (including a failure to build the batch being removed) aborts
immediately and is returned. -/
def Stop (env : Env) (spec : BlackduckSpec) : Except String Unit × List Effect :=
  let hub := getHubDeployer env spec
  match hub.1 with
  | Except.error e => (Except.error e, hub.2)
  | Except.ok _ =>
    let fx0 := hub.2 ++ [Effect.undeploy Batch.hub]
    match env.undeployBatch Batch.hub with
    | Except.error e => (Except.error e, fx0)
    | Except.ok _ =>
      match spec.externalPostgres with
      | some _ => stopConfigSection env fx0
      | none =>
        let pg := getPostgresDeployer env spec
        match pg.1 with
        | Except.error e => (Except.error e, fx0 ++ pg.2)
        | Except.ok _ =>
          let fx1 := fx0 ++ pg.2 ++ [Effect.undeploy Batch.postgres]
          match env.undeployBatch Batch.postgres with
          | Except.error e => (Except.error e, fx1)
          | Except.ok _ => stopConfigSection env fx1
where
  /-- The tail of `Stop`: build and undeploy the config batch. -/
  stopConfigSection (env : Env) (fx : List Effect) :
      Except String Unit × List Effect :=
    let cfg := getHubConfigDeployer env
    match cfg.1 with
    | Except.error e => (Except.error e, fx ++ cfg.2)
    | Except.ok _ =>
      let fx2 := fx ++ cfg.2 ++ [Effect.undeploy Batch.hubConfig]
      (env.undeployBatch Batch.hubConfig, fx2)

/-- The load-balancer / node-port fallback of `CreateHub` (lines 186–194):
try the load-balancer poll; on its failure try the node-port poll; on that
failure return the node-port error. -/
def lbNpFallback (env : Env) (ns : String) :
    Except String (String × String) × List Effect :=
  let lb := getLoadBalancerIPAddress env ns ("webserver-lb")
  match lb.1 with
  | Except.ok ip => (Except.ok (ip, "loadBalancer"), lb.2)
  | Except.error _ =>
    let np := getNodePortIPAddress env ns ("webserver-np")
    match np.1 with
    | Except.ok ip => (Except.ok (ip, "nodePort"), lb.2 ++ np.2)
    | Except.error e => (Except.error e, lb.2 ++ np.2)

/-- The endpoint-resolution section of `CreateHub` (lines 173–195), together
with the mechanism that produced the address: if a route client is
configured, create/read the route (an error here aborts); after the one-time
settling sleep, a route host that case-folds to "" falls through to the
load-balancer/node-port fallback, otherwise the route host is the result. -/
def resolveEndpoint (env : Env) (ns : String) :
    Except String (String × String) × List Effect :=
  if env.routeClientConfigured then
    match env.createRoute with
    | Except.error e => (Except.error e, [Effect.createRouteCall])
    | Except.ok r =>
      let fx := [Effect.createRouteCall, Effect.sleepSecs 60]
      if eqFold r.host ("") then
        let f := lbNpFallback env ns
        (f.1, fx ++ f.2)
      else
        (Except.ok (r.host, "route"), fx)
  else
    let f := lbNpFallback env ns
    (f.1, [Effect.sleepSecs 60] ++ f.2)

/-- `CreateHub`: deployer construction, flavor resolution, config-batch build
(`hc.init`), config-batch apply (failure only logged), `Start`, exposure
batch, pod-readiness check, PVC volume-name resolution, endpoint
resolution. -/
def CreateHub (env : Env) (spec : BlackduckSpec) : CreateResult × List Effect :=
  match env.newDeployer with
  | Except.error e => (CreateResult.mk ("") [] true (some (deployerErrMsg e)), [])
  | Except.ok _ =>
    match GetContainersFlavor spec.size with
    | none => (CreateResult.mk ("") [] true (some (configurationErrMsg spec.size)), [])
    | some _ =>
      match env.initBuild with
      | Except.error e => (CreateResult.mk ("") [] true (some e), [])
      | Except.ok _ =>
        -- `deployer.Run()` on the init batch: its error is logged and ignored
        let fx0 := [Effect.run Batch.initConfig]
        let s := Start env spec
        let fx1 := fx0 ++ s.2
        match s.1 with
        | Except.error e => (CreateResult.mk ("") [] true (some e), fx1)
        | Except.ok _ =>
          match env.newDeployer with
          | Except.error e => (CreateResult.mk ("") [] true (some (deployerErrMsg e)), fx1)
          | Except.ok _ =>
            let fx2 := fx1 ++ [Effect.run Batch.expose]
            match env.runBatch Batch.expose with
            | Except.error e => (CreateResult.mk ("") [] true (some e), fx2)
            | Except.ok _ =>
              let fx3 := fx2 ++ [Effect.podsCheck]
              match env.validatePodsRunning with
              | Except.error e => (CreateResult.mk ("") [] true (some e), fx3)
              | Except.ok _ =>
                let p := resolvePVCs env spec
                let fx4 := fx3 ++ p.2
                match p.1 with
                | Except.error e => (CreateResult.mk ("") [] false (some e), fx4)
                | Except.ok m =>
                  let ep := resolveEndpoint env spec.ns
                  let fx5 := fx4 ++ ep.2
                  match ep.1 with
                  | Except.error e => (CreateResult.mk ("") m false (some e), fx5)
                  | Except.ok addr => (CreateResult.mk addr.1 m false none, fx5)

/-- The wait-for-absence loop of `DeleteHub` (lines 79–88): each iteration
looks the namespace up, reads `ns.Status` for logging *before* the error
check (recorded as `statusRead` with whether an object was present), sleeps
10 seconds, and breaks exactly when the lookup errored.  `none` = the fuel
ran out before the lookup ever failed (the source loop is unbounded). -/
def deleteLoop (lookup : Nat → Option NamespaceObj × Option String) :
    Nat → Nat → Option (List Effect)
  | 0, _ => none
  | n + 1, i =>
    let r := lookup i
    let ev := [Effect.nsGet i, Effect.statusRead r.1.isSome, Effect.sleepSecs 10]
    match r.2 with
    | some _ => some ev
    | none =>
      match deleteLoop lookup n (i + 1) with
      | none => none
      | some tr => some (ev ++ tr)

/-- `DeleteHub`: check the namespace (if absent, log and skip deletion and the
wait loop), delete it (error only logged), wait for it to be gone, then
delete the persistent volume and the cluster role binding (errors only
logged) and return nil.  The results of the delete sub-calls are never
consulted, mirroring the source, so they do not appear as `Env` reads; the
attempts are recorded in the trace.  `none` = the unbounded wait loop
outlived the fuel. -/
def DeleteHub (env : Env) (fuel : Nat) :
    Option (Except String Unit × List Effect) :=
  match env.nsInitial.2 with
  | some _ =>
    some (Except.ok (), [Effect.nsGetInitial, Effect.pvDelete, Effect.crbDelete])
  | none =>
    match deleteLoop env.nsLookup fuel 0 with
    | none => none
    | some tr =>
      some (Except.ok (),
        [Effect.nsGetInitial, Effect.nsDelete] ++ tr ++ [Effect.pvDelete, Effect.crbDelete])

/-- Number of service lookups recorded in a trace. -/
def svcAttempts (tr : List Effect) : Nat :=
  (tr.filter fun e =>
    match e with
    | Effect.svcLookup _ _ => true
    | _ => false).length

/-- Number of bootstrap-credential fetches recorded in a trace. -/
def pwAttempts (tr : List Effect) : Nat :=
  (tr.filter fun e =>
    match e with
    | Effect.passwordsFetch _ => true
    | _ => false).length

/-- All sleeps recorded in a trace last `n` seconds. -/
def sleepsAre (n : Nat) (tr : List Effect) : Bool :=
  tr.all fun e =>
    match e with
    | Effect.sleepSecs m => m == n
    | _ => true

/-- The batches a trace undeploys, in order. -/
def undeploysOf (tr : List Effect) : List Batch :=
  tr.filterMap fun e =>
    match e with
    | Effect.undeploy b => some b
    | _ => none

/-- A trace ran the Database Bootstrapper: `initPostgres` (and nothing else)
waits on the database service endpoint, and does so on every path. -/
def runsDBInit (tr : List Effect) : Bool :=
  tr.any fun e =>
    match e with
    | Effect.waitDBEndpoint => true
    | _ => false

/-- A fully cooperative cluster: every external call succeeds on its first
attempt; no route client; the load-balancer service has an ingress IP
immediately. -/
def envAllOk : Env where
  newDeployer := Except.ok ()
  runBatch := fun _ => Except.ok ()
  undeployBatch := fun _ => Except.ok ()
  initBuild := Except.ok ()
  validatePodsRunning := Except.ok ()
  getPVC := fun _ _ => Except.ok ("vol-1")
  routeClientConfigured := false
  createRoute := Except.ok (RouteObj.mk ("bd.example.com"))
  getService := fun svcName _ =>
    if svcName = "webserver-lb" then Except.ok (ServiceStatus.mk ["1.2.3.4"] (""))
    else Except.ok (ServiceStatus.mk [] ("10.0.0.9"))
  getDefaultPasswords := fun _ => Except.ok ("a", "u", "p")
  waitForServiceEndpointReady := Except.ok ()
  initDatabase := Except.ok ()
  getHubDBPassword := Except.ok ("pw")
  cloneJob := Except.ok ()
  addAnyUID := Except.ok ()
  nsInitial := (some (NamespaceObj.mk ("Active")), none)
  nsLookup := fun _ => (none, some ("not found"))
  deleteNamespace := Except.ok ()
  deletePersistentVolume := Except.ok ()
  deleteClusterRoleBinding := Except.ok ()

/-- `envAllOk`, except that applying the init config batch fails. -/
def envInitApplyFails : Env :=
  { envAllOk with
    runBatch := fun b =>
      if b = Batch.initConfig then Except.error ("boom") else Except.ok () }

/-- `envAllOk`, except that a route client is configured and the route
resolves with an empty host while a load-balancer ingress is also present. -/
def envEmptyRouteHost : Env :=
  { envAllOk with
    routeClientConfigured := true
    createRoute := Except.ok (RouteObj.mk ("")) }

/-- `envAllOk`, except that neither the load balancer nor the node port ever
reports an address: every endpoint poll exhausts its attempts. -/
def envNoEndpoint : Env :=
  { envAllOk with
    getService := fun _ _ => Except.ok (ServiceStatus.mk [] ("")) }

/-- `envAllOk`, with a route client configured; the route resolves with a
non-empty host while a load-balancer ingress is also present. -/
def envRouteOk : Env := { envAllOk with routeClientConfigured := true }

/-- `envAllOk`, except that every bootstrap-credential fetch fails. -/
def envPwFail : Env :=
  { envAllOk with getDefaultPasswords := fun _ => Except.error ("nope") }

/-- `envAllOk`, except that the initial namespace check reports the namespace
absent. -/
def envNsAbsent : Env :=
  { envAllOk with nsInitial := (none, some ("namespaces ns1 not found")) }

/-- Spec of §8's scenario: small, no persistent storage, internal database,
first start. -/
def specSmall : BlackduckSpec :=
  BlackduckSpec.mk ("ns1") ("small") false [] none ("pending") ("")

/-- A spec whose size tag is unknown to the Flavor Resolver. -/
def specHuge : BlackduckSpec :=
  BlackduckSpec.mk ("ns1") ("huge") false [] none ("pending") ("")

/-- Persistent storage enabled, first start (state tag "pending"). -/
def specPersistPending : BlackduckSpec :=
  BlackduckSpec.mk ("ns1") ("small") true [PVC.mk ("blackduck-postgres")] none ("pending") ("")

/-- Persistent storage enabled, state tag no longer "pending". -/
def specPersistRunning : BlackduckSpec :=
  BlackduckSpec.mk ("ns1") ("small") true [PVC.mk ("blackduck-postgres")] none ("running") ("")

theorem svcAttempts_append (a b : List Effect) :
    svcAttempts (a ++ b) = svcAttempts a + svcAttempts b := by
  simp [svcAttempts, List.filter_append]

theorem pwAttempts_append (a b : List Effect) :
    pwAttempts (a ++ b) = pwAttempts a + pwAttempts b := by
  simp [pwAttempts, List.filter_append]

theorem sleepsAre_append (n : Nat) (a b : List Effect) :
    sleepsAre n (a ++ b) = (sleepsAre n a && sleepsAre n b) := by
  simp [sleepsAre, List.all_append]

theorem runsDBInit_append (a b : List Effect) :
    runsDBInit (a ++ b) = (runsDBInit a || runsDBInit b) := by
  simp [runsDBInit, List.any_append]

theorem runsDBInit_of_mem {tr : List Effect} (h : Effect.waitDBEndpoint ∈ tr) :
    runsDBInit tr = true := by
  simp only [runsDBInit, List.any_eq_true]
  exact ⟨Effect.waitDBEndpoint, h, rfl⟩

theorem servicePoll_err {look : Nat → Except String ServiceStatus}
    {extract : ServiceStatus → Option String} {svcName ns : String} {n i : Nat} {e : String}
    (hl : look i = Except.error e) :
    servicePoll look extract svcName ns (n + 1) i =
      (Except.error (svcGetErrMsg svcName ns e),
        [Effect.sleepSecs 10, Effect.svcLookup svcName i]) := by
  simp [servicePoll, hl]

theorem servicePoll_hit {look : Nat → Except String ServiceStatus}
    {extract : ServiceStatus → Option String} {svcName ns : String} {n i : Nat}
    {s : ServiceStatus} {ip : String}
    (hl : look i = Except.ok s) (hx : extract s = some ip) :
    servicePoll look extract svcName ns (n + 1) i =
      (Except.ok ip, [Effect.sleepSecs 10, Effect.svcLookup svcName i]) := by
  simp [servicePoll, hl, hx]

theorem servicePoll_miss {look : Nat → Except String ServiceStatus}
    {extract : ServiceStatus → Option String} {svcName ns : String} {n i : Nat}
    {s : ServiceStatus}
    (hl : look i = Except.ok s) (hx : extract s = none) :
    servicePoll look extract svcName ns (n + 1) i =
      ((servicePoll look extract svcName ns n (i + 1)).1,
        [Effect.sleepSecs 10, Effect.svcLookup svcName i] ++
          (servicePoll look extract svcName ns n (i + 1)).2) := by
  simp [servicePoll, hl, hx]

theorem servicePoll_attempts_le (look : Nat → Except String ServiceStatus)
    (extract : ServiceStatus → Option String) (svcName ns : String) :
    ∀ fuel i, svcAttempts (servicePoll look extract svcName ns fuel i).2 ≤ fuel := by
  intro fuel
  induction fuel with
  | zero => intro i; simp [servicePoll, svcAttempts]
  | succ n ih =>
    intro i
    rcases hl : look i with e | s
    · rw [servicePoll_err hl]
      simp [svcAttempts]
    · rcases hx : extract s with _ | ip
      · rw [servicePoll_miss hl hx]
        simp only [svcAttempts_append]
        have := ih (i + 1)
        simp [svcAttempts] at this ⊢
        omega
      · rw [servicePoll_hit hl hx]
        simp [svcAttempts]

theorem servicePoll_sleeps (look : Nat → Except String ServiceStatus)
    (extract : ServiceStatus → Option String) (svcName ns : String) :
    ∀ fuel i, sleepsAre 10 (servicePoll look extract svcName ns fuel i).2 = true := by
  intro fuel
  induction fuel with
  | zero => intro i; simp [servicePoll, sleepsAre]
  | succ n ih =>
    intro i
    rcases hl : look i with e | s
    · rw [servicePoll_err hl]; simp [sleepsAre]
    · rcases hx : extract s with _ | ip
      · rw [servicePoll_miss hl hx]
        rw [sleepsAre_append, ih (i + 1)]
        simp [sleepsAre]
      · rw [servicePoll_hit hl hx]; simp [sleepsAre]

theorem servicePoll_timeout (look : Nat → Except String ServiceStatus)
    (extract : ServiceStatus → Option String) (svcName ns : String) :
    ∀ fuel i,
      (∀ j, j < fuel → ∃ s, look (i + j) = Except.ok s ∧ extract s = none) →
      (servicePoll look extract svcName ns fuel i).1 = Except.error (svcTimeoutMsg svcName ns) ∧
        svcAttempts (servicePoll look extract svcName ns fuel i).2 = fuel := by
  intro fuel
  induction fuel with
  | zero => intro i _; simp [servicePoll, svcAttempts]
  | succ n ih =>
    intro i h
    obtain ⟨s, hs, hx⟩ := h 0 (Nat.succ_pos n)
    rw [Nat.add_zero] at hs
    rw [servicePoll_miss hs hx]
    have hrec := ih (i + 1) (fun j hj => by
      obtain ⟨s', hs', hx'⟩ := h (j + 1) (Nat.succ_lt_succ hj)
      exact ⟨s', by rwa [Nat.add_comm j 1, ← Nat.add_assoc] at hs', hx'⟩)
    refine ⟨hrec.1, ?_⟩
    rw [svcAttempts_append, hrec.2]
    simp [svcAttempts]
    omega

theorem servicePoll_found (look : Nat → Except String ServiceStatus)
    (extract : ServiceStatus → Option String) (svcName ns : String) :
    ∀ k fuel i, k < fuel →
      (∀ j, j < k → ∃ s, look (i + j) = Except.ok s ∧ extract s = none) →
      ∀ s ip, look (i + k) = Except.ok s → extract s = some ip →
      (servicePoll look extract svcName ns fuel i).1 = Except.ok ip ∧
        svcAttempts (servicePoll look extract svcName ns fuel i).2 = k + 1 := by
  intro k
  induction k with
  | zero =>
    intro fuel i hk _ s ip hs hip
    obtain ⟨n, rfl⟩ := Nat.exists_eq_succ_of_ne_zero (Nat.pos_iff_ne_zero.mp hk)
    rw [Nat.add_zero] at hs
    rw [servicePoll_hit hs hip]
    simp [svcAttempts]
  | succ m ih =>
    intro fuel i hk hb s ip hs hip
    obtain ⟨n, rfl⟩ := Nat.exists_eq_succ_of_ne_zero (Nat.pos_iff_ne_zero.mp (Nat.lt_of_le_of_lt (Nat.zero_le _) hk))
    obtain ⟨s0, hs0, hx0⟩ := hb 0 (Nat.succ_pos m)
    rw [Nat.add_zero] at hs0
    rw [servicePoll_miss hs0 hx0]
    have hrec := ih n (i + 1) (Nat.lt_of_succ_lt_succ hk)
      (fun j hj => by
        obtain ⟨s', hs', hx'⟩ := hb (j + 1) (Nat.succ_lt_succ hj)
        exact ⟨s', by rwa [Nat.add_comm j 1, ← Nat.add_assoc] at hs', hx'⟩)
      s ip (by rwa [show i + (m + 1) = i + 1 + m from by omega] at hs) hip
    refine ⟨hrec.1, ?_⟩
    rw [svcAttempts_append, hrec.2]
    simp [svcAttempts]
    omega

theorem servicePoll_lookupErr (look : Nat → Except String ServiceStatus)
    (extract : ServiceStatus → Option String) (svcName ns : String) :
    ∀ k fuel i, k < fuel →
      (∀ j, j < k → ∃ s, look (i + j) = Except.ok s ∧ extract s = none) →
      ∀ e, look (i + k) = Except.error e →
      (servicePoll look extract svcName ns fuel i).1 = Except.error (svcGetErrMsg svcName ns e) ∧
        svcAttempts (servicePoll look extract svcName ns fuel i).2 = k + 1 := by
  intro k
  induction k with
  | zero =>
    intro fuel i hk _ e he
    obtain ⟨n, rfl⟩ := Nat.exists_eq_succ_of_ne_zero (Nat.pos_iff_ne_zero.mp hk)
    rw [Nat.add_zero] at he
    rw [servicePoll_err he]
    simp [svcAttempts]
  | succ m ih =>
    intro fuel i hk hb e he
    obtain ⟨n, rfl⟩ := Nat.exists_eq_succ_of_ne_zero (Nat.pos_iff_ne_zero.mp (Nat.lt_of_le_of_lt (Nat.zero_le _) hk))
    obtain ⟨s0, hs0, hx0⟩ := hb 0 (Nat.succ_pos m)
    rw [Nat.add_zero] at hs0
    rw [servicePoll_miss hs0 hx0]
    have hrec := ih n (i + 1) (Nat.lt_of_succ_lt_succ hk)
      (fun j hj => by
        obtain ⟨s', hs', hx'⟩ := hb (j + 1) (Nat.succ_lt_succ hj)
        exact ⟨s', by rwa [Nat.add_comm j 1, ← Nat.add_assoc] at hs', hx'⟩)
      e (by rwa [show i + (m + 1) = i + 1 + m from by omega] at he)
    refine ⟨hrec.1, ?_⟩
    rw [svcAttempts_append, hrec.2]
    simp [svcAttempts]
    omega

theorem eqFold_ne_empty {s : String} (h : s ≠ "") : eqFold s ("") = false := by
  rw [eqFold, beq_eq_false_iff_ne]
  intro hmap
  apply h
  have hnil : s.data.map Char.toLower = [] := by
    rw [hmap]
    rfl
  have hdata : s.data = [] := List.map_eq_nil_iff.mp hnil
  cases s
  simp_all

theorem credFetch_ok {f : Nat → Except String (String × String × String)}
    {n i : Nat} {p : String × String × String} (hf : f i = Except.ok p) :
    credFetch f (n + 1) i = (some p, [Effect.passwordsFetch i]) := by
  simp [credFetch, hf]

theorem credFetch_err {f : Nat → Except String (String × String × String)}
    {n i : Nat} {e : String} (hf : f i = Except.error e) :
    credFetch f (n + 1) i =
      ((credFetch f n (i + 1)).1,
        Effect.passwordsFetch i :: Effect.sleepSecs 5 :: (credFetch f n (i + 1)).2) := by
  simp [credFetch, hf]

theorem credFetch_attempts_le (f : Nat → Except String (String × String × String)) :
    ∀ n i, pwAttempts (credFetch f n i).2 ≤ n := by
  intro n
  induction n with
  | zero => intro i; simp [credFetch, pwAttempts]
  | succ m ih =>
    intro i
    rcases hf : f i with e | p
    · rw [credFetch_err hf]
      have := ih (i + 1)
      simp [pwAttempts] at this ⊢
      omega
    · rw [credFetch_ok hf]
      simp [pwAttempts]

theorem credFetch_sleeps (f : Nat → Except String (String × String × String)) :
    ∀ n i, sleepsAre 5 (credFetch f n i).2 = true := by
  intro n
  induction n with
  | zero => intro i; simp [credFetch, sleepsAre]
  | succ m ih =>
    intro i
    rcases hf : f i with e | p
    · rw [credFetch_err hf]
      have := ih (i + 1)
      simp [sleepsAre] at this ⊢
      exact this
    · rw [credFetch_ok hf]
      simp [sleepsAre]

theorem credFetch_allFail {f : Nat → Except String (String × String × String)}
    (hf : ∀ j, ∃ e, f j = Except.error e) :
    ∀ n i, (credFetch f n i).1 = none ∧ pwAttempts (credFetch f n i).2 = n := by
  intro n
  induction n with
  | zero => intro i; simp [credFetch, pwAttempts]
  | succ m ih =>
    intro i
    obtain ⟨e, he⟩ := hf i
    rw [credFetch_err he]
    have := ih (i + 1)
    refine ⟨this.1, ?_⟩
    simp [pwAttempts] at this ⊢
    omega

theorem initPostgres_trace (env : Env) (spec : BlackduckSpec) :
    ∃ tail, (initPostgres env spec).2 =
        (credFetch env.getDefaultPasswords maxInt32 0).2 ++ Effect.waitDBEndpoint :: tail ∧
      pwAttempts tail = 0 ∧ sleepsAre 5 tail = true := by
  unfold initPostgres
  rcases hw : env.waitForServiceEndpointReady with e | u
  · exact ⟨[], by simp [hw], rfl, rfl⟩
  · by_cases hdb : spec.dbPrototype = ""
    · rcases hi : env.initDatabase with e | u'
      · exact ⟨[Effect.initDatabaseRun], by simp [hw, hdb, hi], rfl, rfl⟩
      · exact ⟨[Effect.initDatabaseRun], by simp [hw, hdb, hi], rfl, rfl⟩
    · rcases hp : env.getHubDBPassword with e | pw
      · exact ⟨[Effect.dbPasswordFetch], by simp [hw, hdb, hp], rfl, rfl⟩
      · rcases hc : env.cloneJob with e | u'
        · exact ⟨[Effect.dbPasswordFetch, Effect.cloneJobRun], by simp [hw, hdb, hp, hc], rfl, rfl⟩
        · exact ⟨[Effect.dbPasswordFetch, Effect.cloneJobRun], by simp [hw, hdb, hp, hc], rfl, rfl⟩

theorem initPostgres_marker (env : Env) (spec : BlackduckSpec) :
    Effect.waitDBEndpoint ∈ (initPostgres env spec).2 := by
  obtain ⟨tail, htr, -, -⟩ := initPostgres_trace env spec
  rw [htr]
  exact List.mem_append_right _ (List.mem_cons_self _ _)

theorem initPostgres_attempts_le (env : Env) (spec : BlackduckSpec) :
    pwAttempts (initPostgres env spec).2 ≤ maxInt32 := by
  obtain ⟨tail, htr, hpw, -⟩ := initPostgres_trace env spec
  rw [htr, pwAttempts_append]
  have h1 : pwAttempts (Effect.waitDBEndpoint :: tail) = 0 := by
    simpa [pwAttempts] using hpw
  rw [h1]
  simpa using credFetch_attempts_le env.getDefaultPasswords maxInt32 0

theorem initPostgres_sleeps (env : Env) (spec : BlackduckSpec) :
    sleepsAre 5 (initPostgres env spec).2 = true := by
  obtain ⟨tail, htr, -, hsl⟩ := initPostgres_trace env spec
  rw [htr, sleepsAre_append]
  have h1 : sleepsAre 5 (Effect.waitDBEndpoint :: tail) = true := by
    simpa [sleepsAre] using hsl
  rw [h1, credFetch_sleeps env.getDefaultPasswords maxInt32 0]
  rfl

/-- Claim C2 (confirmed): for every instance spec whose size tag the Flavor
Resolver does not know, `CreateHub` fails with the `ConfigurationError`
message and performs zero cluster mutations: the returned trace is empty, so
in particular no batch is ever handed to the applier, leaving existing state
untouched.  (Deployer construction, a purely local step preceding the flavor
check in the source, is assumed to succeed.) -/
theorem spec2_C2 (env : Env) (spec : BlackduckSpec)
    (hnd : env.newDeployer = Except.ok ())
    (hsz : GetContainersFlavor spec.size = none) :
    CreateHub env spec =
      (CreateResult.mk ("") [] true (some (configurationErrMsg spec.size)), []) := by
  simp [CreateHub, hnd, hsz]

theorem spec2_C2_witness :
    GetContainersFlavor specHuge.size = none ∧
    CreateHub envAllOk specHuge =
      (CreateResult.mk ("") [] true (some (configurationErrMsg ("huge"))), []) :=
  ⟨by decide, spec2_C2 envAllOk specHuge rfl (by decide)⟩

/-- Claim C3 (counterexample): with a route client configured and the route
resolving — but with an empty host — the code falls through to the
load-balancer branch: the result's mechanism is "loadBalancer" and the
load-balancer poll is attempted, contradicting the claim that a resolving
route always yields mechanism "route" with the other branches never
attempted. -/
theorem spec2_C3_counterexample :
    envEmptyRouteHost.routeClientConfigured = true ∧
    envEmptyRouteHost.createRoute = Except.ok (RouteObj.mk ("")) ∧
    (resolveEndpoint envEmptyRouteHost ("ns1")).1 =
      Except.ok (("1.2.3.4"), ("loadBalancer")) ∧
    Effect.svcLookup ("webserver-lb") 0 ∈ (resolveEndpoint envEmptyRouteHost ("ns1")).2 := by
  refine ⟨rfl, rfl, by decide, by decide⟩

/-- Claim C3 (corrected): whenever a route client is configured and the route
resolves with a non-empty host, the result is the route host with mechanism
"route", and the load-balancer and node-port branches are never attempted
(no service lookup appears in the trace); at most one mechanism is reported
even if a load-balancer ingress would also resolve. -/
theorem spec2_C3 (env : Env) (ns : String) (r : RouteObj)
    (hrc : env.routeClientConfigured = true)
    (hr : env.createRoute = Except.ok r)
    (hh : r.host ≠ "") :
    resolveEndpoint env ns =
      (Except.ok ((r.host), ("route")), [Effect.createRouteCall, Effect.sleepSecs 60]) ∧
    ∀ svcName i, Effect.svcLookup svcName i ∉ (resolveEndpoint env ns).2 := by
  have hef := eqFold_ne_empty hh
  have h1 : resolveEndpoint env ns =
      (Except.ok ((r.host), ("route")), [Effect.createRouteCall, Effect.sleepSecs 60]) := by
    simp [resolveEndpoint, hrc, hr, hef]
  refine ⟨h1, ?_⟩
  rw [h1]
  intro svcName i
  simp

theorem spec2_C3_witness :
    resolveEndpoint envRouteOk ("ns1") =
      (Except.ok (("bd.example.com"), ("route")),
        [Effect.createRouteCall, Effect.sleepSecs 60]) :=
  (spec2_C3 envRouteOk ("ns1") (RouteObj.mk ("bd.example.com")) rfl rfl (by decide)).1

/-- Claim C10 (confirmed): in the wait-for-absence loop of `DeleteHub`, an
iteration whose namespace lookup fails — the condition that ends the loop —
still performs the read of the namespace object's status first: with no
object present the trace records the unguarded read (`statusRead false`)
before the loop breaks. -/
theorem spec2_C10 (lookup : Nat → Option NamespaceObj × Option String) (n i : Nat)
    (e : String) (hfail : lookup i = (none, some e)) :
    deleteLoop lookup (n + 1) i =
      some [Effect.nsGet i, Effect.statusRead false, Effect.sleepSecs 10] := by
  simp [deleteLoop, hfail]

theorem spec2_C10_witness :
    deleteLoop (fun _ => (none, some ("namespaces ns1 not found"))) 1 0 =
      some [Effect.nsGet 0, Effect.statusRead false, Effect.sleepSecs 10] :=
  spec2_C10 (fun _ => (none, some ("namespaces ns1 not found"))) 0 0
    ("namespaces ns1 not found") rfl

/-- Claim C5 (confirmed): every terminating run of `DeleteHub` returns nil
(`Except.ok ()`) — sub-step failures are logged, never returned — and always
attempts the persistent-volume and cluster-role-binding deletions; when the
platform reports the namespace already absent on the initial check,
`DeleteHub` returns nil immediately (skipping deletion and the wait loop)
while still attempting both cleanups. -/
theorem spec2_C5 (env : Env) (fuel : Nat) :
    (∀ res tr, DeleteHub env fuel = some (res, tr) →
      res = Except.ok () ∧ Effect.pvDelete ∈ tr ∧ Effect.crbDelete ∈ tr) ∧
    (∀ e, env.nsInitial.2 = some e →
      DeleteHub env fuel =
        some (Except.ok (), [Effect.nsGetInitial, Effect.pvDelete, Effect.crbDelete])) := by
  constructor
  · intro res tr h
    unfold DeleteHub at h
    rcases hns : env.nsInitial.2 with _ | e <;> rw [hns] at h
    · rcases hdl : deleteLoop env.nsLookup fuel 0 with _ | tr' <;> rw [hdl] at h
      · exact absurd h (by simp)
      · simp only [Option.some.injEq, Prod.mk.injEq] at h
        obtain ⟨hres, htr⟩ := h
        subst hres htr
        refine ⟨rfl, ?_, ?_⟩ <;> simp
    · simp only [Option.some.injEq, Prod.mk.injEq] at h
      obtain ⟨hres, htr⟩ := h
      subst hres htr
      refine ⟨rfl, ?_, ?_⟩ <;> simp
  · intro e he
    unfold DeleteHub
    rw [he]

theorem spec2_C5_witness :
    DeleteHub envNsAbsent 0 =
      some (Except.ok (), [Effect.nsGetInitial, Effect.pvDelete, Effect.crbDelete]) :=
  (spec2_C5 envNsAbsent 0).2 ("namespaces ns1 not found") rfl

/-- Claim C9 (counterexample): the credential-fetch retry loop of
`initPostgres` does have an enforced upper bound — `math.MaxInt32`
iterations: with every fetch failing it exits after exactly 2147483647
attempts (with no password obtained), and initialization still proceeds to
the database-endpoint wait afterwards. -/
theorem spec2_C9_counterexample :
    (credFetch envPwFail.getDefaultPasswords maxInt32 0).1 = none ∧
    pwAttempts (credFetch envPwFail.getDefaultPasswords maxInt32 0).2 = 2147483647 ∧
    Effect.waitDBEndpoint ∈ (initPostgres envPwFail specSmall).2 := by
  have h := credFetch_allFail (f := envPwFail.getDefaultPasswords)
    (fun j => ⟨("nope"), rfl⟩) maxInt32 0
  exact ⟨h.1, h.2, initPostgres_marker envPwFail specSmall⟩

/-- Claim C9 (corrected): the Database Bootstrapper's fetch of bootstrap
credentials retries at a fixed 5-second interval up to `math.MaxInt32`
(2147483647) attempts — an effectively, but not literally, unbounded loop —
never surfaces a `TimeoutError`, and the rest of initialization proceeds
once the loop exits, whether by success or by exhausting the cap. -/
theorem spec2_C9 (env : Env) (spec : BlackduckSpec) :
    pwAttempts (initPostgres env spec).2 ≤ maxInt32 ∧
    sleepsAre 5 (initPostgres env spec).2 = true ∧
    Effect.waitDBEndpoint ∈ (initPostgres env spec).2 :=
  ⟨initPostgres_attempts_le env spec, initPostgres_sleeps env spec,
    initPostgres_marker env spec⟩

theorem spec2_C9_witness :
    Effect.waitDBEndpoint ∈ (initPostgres envAllOk specSmall).2 :=
  (spec2_C9 envAllOk specSmall).2.2

/-- Claim C8 (confirmed): the load-balancer and node-port address polls each
make at most 10 attempts, every sleep between attempts is 10 seconds, the
address is returned at the first attempt on which it is present, a timeout
error is returned when all 10 attempts are exhausted without an address, and
a service-lookup error is propagated immediately — the failing attempt is
the last one made. -/
theorem spec2_C8 (env : Env) (ns svcName : String) :
    (svcAttempts (getLoadBalancerIPAddress env ns svcName).2 ≤ 10 ∧
      sleepsAre 10 (getLoadBalancerIPAddress env ns svcName).2 = true ∧
      svcAttempts (getNodePortIPAddress env ns svcName).2 ≤ 10 ∧
      sleepsAre 10 (getNodePortIPAddress env ns svcName).2 = true) ∧
    ((∀ j, j < 10 → ∃ s, env.getService svcName j = Except.ok s ∧ lbExtract s = none) →
      (getLoadBalancerIPAddress env ns svcName).1 = Except.error (svcTimeoutMsg svcName ns) ∧
        svcAttempts (getLoadBalancerIPAddress env ns svcName).2 = 10) ∧
    (∀ k, k < 10 →
      (∀ j, j < k → ∃ s, env.getService svcName j = Except.ok s ∧ lbExtract s = none) →
      ∀ s ip, env.getService svcName k = Except.ok s → lbExtract s = some ip →
      (getLoadBalancerIPAddress env ns svcName).1 = Except.ok ip ∧
        svcAttempts (getLoadBalancerIPAddress env ns svcName).2 = k + 1) ∧
    (∀ k, k < 10 →
      (∀ j, j < k → ∃ s, env.getService svcName j = Except.ok s ∧ lbExtract s = none) →
      ∀ e, env.getService svcName k = Except.error e →
      (getLoadBalancerIPAddress env ns svcName).1 =
          Except.error (svcGetErrMsg svcName ns e) ∧
        svcAttempts (getLoadBalancerIPAddress env ns svcName).2 = k + 1) ∧
    ((∀ j, j < 10 → ∃ s, env.getService svcName j = Except.ok s ∧ npExtract s = none) →
      (getNodePortIPAddress env ns svcName).1 = Except.error (svcTimeoutMsg svcName ns) ∧
        svcAttempts (getNodePortIPAddress env ns svcName).2 = 10) ∧
    (∀ k, k < 10 →
      (∀ j, j < k → ∃ s, env.getService svcName j = Except.ok s ∧ npExtract s = none) →
      ∀ s ip, env.getService svcName k = Except.ok s → npExtract s = some ip →
      (getNodePortIPAddress env ns svcName).1 = Except.ok ip ∧
        svcAttempts (getNodePortIPAddress env ns svcName).2 = k + 1) ∧
    (∀ k, k < 10 →
      (∀ j, j < k → ∃ s, env.getService svcName j = Except.ok s ∧ npExtract s = none) →
      ∀ e, env.getService svcName k = Except.error e →
      (getNodePortIPAddress env ns svcName).1 =
          Except.error (svcGetErrMsg svcName ns e) ∧
        svcAttempts (getNodePortIPAddress env ns svcName).2 = k + 1) := by
  refine ⟨⟨?_, ?_, ?_, ?_⟩, ?_, ?_, ?_, ?_, ?_, ?_⟩
  · exact servicePoll_attempts_le (env.getService svcName) lbExtract svcName ns 10 0
  · exact servicePoll_sleeps (env.getService svcName) lbExtract svcName ns 10 0
  · exact servicePoll_attempts_le (env.getService svcName) npExtract svcName ns 10 0
  · exact servicePoll_sleeps (env.getService svcName) npExtract svcName ns 10 0
  · intro h
    exact servicePoll_timeout (env.getService svcName) lbExtract svcName ns 10 0
      (fun j hj => by simpa using h j hj)
  · intro k hk hb s ip hs hip
    exact servicePoll_found (env.getService svcName) lbExtract svcName ns k 10 0 hk
      (fun j hj => by simpa using hb j hj) s ip (by simpa using hs) hip
  · intro k hk hb e he
    exact servicePoll_lookupErr (env.getService svcName) lbExtract svcName ns k 10 0 hk
      (fun j hj => by simpa using hb j hj) e (by simpa using he)
  · intro h
    exact servicePoll_timeout (env.getService svcName) npExtract svcName ns 10 0
      (fun j hj => by simpa using h j hj)
  · intro k hk hb s ip hs hip
    exact servicePoll_found (env.getService svcName) npExtract svcName ns k 10 0 hk
      (fun j hj => by simpa using hb j hj) s ip (by simpa using hs) hip
  · intro k hk hb e he
    exact servicePoll_lookupErr (env.getService svcName) npExtract svcName ns k 10 0 hk
      (fun j hj => by simpa using hb j hj) e (by simpa using he)

theorem spec2_C8_witness :
    (getLoadBalancerIPAddress envNoEndpoint ("ns1") ("webserver-lb")).1 =
      Except.error (svcTimeoutMsg ("webserver-lb") ("ns1")) ∧
    svcAttempts (getLoadBalancerIPAddress envNoEndpoint ("ns1") ("webserver-lb")).2 = 10 :=
  (spec2_C8 envNoEndpoint ("ns1") ("webserver-lb")).2.1
    (fun _ _ => ⟨ServiceStatus.mk [] (""), rfl, rfl⟩)

/-- Claim C4 (confirmed): for a spec with no external database reference —
assuming the steps that precede the gate succeed (deployer construction,
config-batch apply, flavor resolution, database-batch apply) — `Start` runs
database initialization (`initPostgres`) if and only if persistent storage
is disabled, or persistent storage is enabled and the state tag is
"pending" (the source compares with `strings.EqualFold`, so the comparison
is case-insensitive). -/
theorem spec2_C4 (env : Env) (spec : BlackduckSpec)
    (hext : spec.externalPostgres = none)
    (hnd : env.newDeployer = Except.ok ())
    (hcfg : env.runBatch Batch.hubConfig = Except.ok ())
    (hfl : (GetContainersFlavor spec.size).isSome = true)
    (hpg : env.runBatch Batch.postgres = Except.ok ()) :
    runsDBInit (Start env spec).2 = true ↔
      (spec.persistentStorage = false ∨
        (spec.persistentStorage = true ∧ eqFold spec.state ("pending") = true)) := by
  obtain ⟨fl, hfl'⟩ := Option.isSome_iff_exists.mp hfl
  have hc : getHubConfigDeployer env = (Except.ok (), []) := by
    simp [getHubConfigDeployer, hnd]
  have hpgd : getPostgresDeployer env spec = (Except.ok (), []) := by
    simp [getPostgresDeployer, hnd, hfl']
  have hhd : getHubDeployer env spec = (Except.ok (), [Effect.anyUID]) := by
    simp [getHubDeployer, hnd, hfl']
  rcases hcond : !spec.persistentStorage ||
      (spec.persistentStorage && eqFold spec.state ("pending")) with _ | _
  · -- the gate is false: no initialization
    have hstart : (Start env spec).2 =
        [Effect.run Batch.hubConfig, Effect.run Batch.postgres,
          Effect.anyUID, Effect.run Batch.hub] := by
      simp [Start, Start.startHubSection, hc, hcfg, hext, hpgd, hpg, hcond, hhd]
    rw [hstart]
    constructor
    · intro hrun
      exact absurd hrun (by decide)
    · intro hrhs
      exfalso
      rcases hrhs with h | ⟨hps, hef⟩
      · rw [h] at hcond; simp at hcond
      · rw [hps, hef] at hcond; simp at hcond
  · -- the gate is true: initPostgres runs (on either of its outcomes)
    have hrun : runsDBInit (Start env spec).2 = true := by
      rcases hip : (initPostgres env spec).1 with e | u
      · simp [Start, Start.startHubSection, hc, hcfg, hext, hpgd, hpg, hcond, hip, hhd,
          runsDBInit_append, runsDBInit]
        exact ⟨Effect.waitDBEndpoint, initPostgres_marker env spec, rfl⟩
      · simp [Start, Start.startHubSection, hc, hcfg, hext, hpgd, hpg, hcond, hip, hhd,
          runsDBInit_append, runsDBInit]
        exact ⟨Effect.waitDBEndpoint, initPostgres_marker env spec, rfl⟩
    rw [hrun]
    simp only [true_iff]
    cases hps : spec.persistentStorage
    · exact Or.inl rfl
    · right
      refine ⟨rfl, ?_⟩
      rw [hps] at hcond
      simpa using hcond

theorem spec2_C4_witness :
    runsDBInit (Start envAllOk specSmall).2 = true ∧
    runsDBInit (Start envAllOk specPersistPending).2 = true ∧
    runsDBInit (Start envAllOk specPersistRunning).2 = false := by
  refine ⟨?_, ?_, ?_⟩
  · exact (spec2_C4 envAllOk specSmall rfl rfl rfl (by decide) rfl).mpr (Or.inl rfl)
  · exact (spec2_C4 envAllOk specPersistPending rfl rfl rfl (by decide) rfl).mpr
      (Or.inr ⟨rfl, by decide⟩)
  · have h := spec2_C4 envAllOk specPersistRunning rfl rfl rfl (by decide) rfl
    rcases hr : runsDBInit (Start envAllOk specPersistRunning).2 with _ | _
    · rfl
    · exfalso
      rcases h.mp hr with hfalse | ⟨-, hef⟩
      · exact absurd hfalse (by decide)
      · exact absurd hef (by decide)

/-- Claim C6 (confirmed): whenever every durable-resource step of `CreateHub`
succeeds (deployer construction, flavor resolution, config-batch build,
`Start`, exposure batch, pod readiness, PVC resolution) but endpoint
resolution fails, `CreateHub` returns `fatal = false` alongside the error —
never `fatal = true`. -/
theorem spec2_C6 (env : Env) (spec : BlackduckSpec) (m : List (String × String)) (e : String)
    (hnd : env.newDeployer = Except.ok ())
    (hfl : (GetContainersFlavor spec.size).isSome = true)
    (hib : env.initBuild = Except.ok ())
    (hstart : (Start env spec).1 = Except.ok ())
    (hexp : env.runBatch Batch.expose = Except.ok ())
    (hpods : env.validatePodsRunning = Except.ok ())
    (hpvc : (resolvePVCs env spec).1 = Except.ok m)
    (hep : (resolveEndpoint env spec.ns).1 = Except.error e) :
    (CreateHub env spec).1.fatal = false ∧ (CreateHub env spec).1.err = some e := by
  obtain ⟨fl, hfl'⟩ := Option.isSome_iff_exists.mp hfl
  have hres : (CreateHub env spec).1 = CreateResult.mk ("") m false (some e) := by
    simp [CreateHub, hnd, hfl', hib, hstart, hexp, hpods, hpvc, hep]
  rw [hres]
  exact ⟨rfl, rfl⟩

theorem spec2_C6_witness :
    (CreateHub envNoEndpoint specSmall).1.fatal = false ∧
    (CreateHub envNoEndpoint specSmall).1.err =
      some (svcTimeoutMsg ("webserver-np") ("ns1")) :=
  spec2_C6 envNoEndpoint specSmall [] (svcTimeoutMsg ("webserver-np") ("ns1"))
    rfl (by decide) rfl (by decide) rfl rfl (by decide) (by decide)

/-- Claim C7 (confirmed): `Stop` removes the application batch first, then —
only when no external database reference is supplied — the database batch,
then the config batch, in that order; the first failure aborts `Stop`
immediately and is returned, with no further removal attempted and no batch
removed twice.  (Deployer construction and flavor resolution, needed to
build each batch, are assumed to succeed.) -/
theorem spec2_C7 (env : Env) (spec : BlackduckSpec)
    (hnd : env.newDeployer = Except.ok ())
    (hfl : (GetContainersFlavor spec.size).isSome = true) :
    (∀ e, env.undeployBatch Batch.hub = Except.error e →
      (Stop env spec).1 = Except.error e ∧
        undeploysOf (Stop env spec).2 = [Batch.hub]) ∧
    (∀ e, spec.externalPostgres = none → env.undeployBatch Batch.hub = Except.ok () →
      env.undeployBatch Batch.postgres = Except.error e →
      (Stop env spec).1 = Except.error e ∧
        undeploysOf (Stop env spec).2 = [Batch.hub, Batch.postgres]) ∧
    (∀ e, spec.externalPostgres = none → env.undeployBatch Batch.hub = Except.ok () →
      env.undeployBatch Batch.postgres = Except.ok () →
      env.undeployBatch Batch.hubConfig = Except.error e →
      (Stop env spec).1 = Except.error e ∧
        undeploysOf (Stop env spec).2 = [Batch.hub, Batch.postgres, Batch.hubConfig]) ∧
    (spec.externalPostgres = none → env.undeployBatch Batch.hub = Except.ok () →
      env.undeployBatch Batch.postgres = Except.ok () →
      env.undeployBatch Batch.hubConfig = Except.ok () →
      (Stop env spec).1 = Except.ok () ∧
        undeploysOf (Stop env spec).2 = [Batch.hub, Batch.postgres, Batch.hubConfig]) ∧
    (∀ u e, spec.externalPostgres = some u → env.undeployBatch Batch.hub = Except.ok () →
      env.undeployBatch Batch.hubConfig = Except.error e →
      (Stop env spec).1 = Except.error e ∧
        undeploysOf (Stop env spec).2 = [Batch.hub, Batch.hubConfig]) ∧
    (∀ u, spec.externalPostgres = some u → env.undeployBatch Batch.hub = Except.ok () →
      env.undeployBatch Batch.hubConfig = Except.ok () →
      (Stop env spec).1 = Except.ok () ∧
        undeploysOf (Stop env spec).2 = [Batch.hub, Batch.hubConfig]) := by
  obtain ⟨fl, hfl'⟩ := Option.isSome_iff_exists.mp hfl
  have hhd : getHubDeployer env spec = (Except.ok (), [Effect.anyUID]) := by
    simp [getHubDeployer, hnd, hfl']
  have hpgd : getPostgresDeployer env spec = (Except.ok (), []) := by
    simp [getPostgresDeployer, hnd, hfl']
  have hc : getHubConfigDeployer env = (Except.ok (), []) := by
    simp [getHubConfigDeployer, hnd]
  refine ⟨?_, ?_, ?_, ?_, ?_, ?_⟩
  · intro e hhub
    constructor <;>
      simp [Stop, Stop.stopConfigSection, hhd, hpgd, hc, hhub, undeploysOf]
  · intro e hext hhub hpgu
    constructor <;>
      simp [Stop, Stop.stopConfigSection, hhd, hpgd, hc, hext, hhub, hpgu, undeploysOf]
  · intro e hext hhub hpgu hcfgu
    constructor <;>
      simp [Stop, Stop.stopConfigSection, hhd, hpgd, hc, hext, hhub, hpgu, hcfgu, undeploysOf]
  · intro hext hhub hpgu hcfgu
    constructor <;>
      simp [Stop, Stop.stopConfigSection, hhd, hpgd, hc, hext, hhub, hpgu, hcfgu, undeploysOf]
  · intro u e hext hhub hcfgu
    constructor <;>
      simp [Stop, Stop.stopConfigSection, hhd, hpgd, hc, hext, hhub, hcfgu, undeploysOf]
  · intro u hext hhub hcfgu
    constructor <;>
      simp [Stop, Stop.stopConfigSection, hhd, hpgd, hc, hext, hhub, hcfgu, undeploysOf]

theorem spec2_C7_witness :
    (Stop envAllOk specSmall).1 = Except.ok () ∧
    undeploysOf (Stop envAllOk specSmall).2 =
      [Batch.hub, Batch.postgres, Batch.hubConfig] :=
  (spec2_C7 envAllOk specSmall rfl (by decide)).2.2.2.1 rfl rfl rfl rfl

/-- Claim C1 (counterexample): with an environment in which applying the init
config batch fails ("boom") but everything else succeeds, `CreateHub` does
not return `(empty, empty, fatal=true, error)`: it continues through every
later step (the application batch is still applied) and returns a successful
result — the apply failure is only logged. -/
theorem spec2_C1_counterexample :
    envInitApplyFails.runBatch Batch.initConfig = Except.error ("boom") ∧
    (CreateHub envInitApplyFails specSmall).1 =
      CreateResult.mk ("1.2.3.4") [] false none ∧
    Effect.run Batch.hub ∈ (CreateHub envInitApplyFails specSmall).2 := by
  refine ⟨rfl, by decide, by decide⟩

/-- Claim C1 (corrected): during `CreateHub`, when *building* the config
batch (`hc.init`, deriving secrets and config maps) fails, `CreateHub`
returns `(empty endpoint, empty PVC map, fatal=true, the error)` with an
empty trace — no further step of the operation is attempted; but when
*applying* the built config batch fails, the failure is only logged:
`CreateHub`'s result and trace are exactly those of a run in which the apply
succeeded. -/
theorem spec2_C1 (env : Env) (spec : BlackduckSpec) (e : String) :
    (env.newDeployer = Except.ok () → (GetContainersFlavor spec.size).isSome = true →
      env.initBuild = Except.error e →
      CreateHub env spec = (CreateResult.mk ("") [] true (some e), [])) ∧
    CreateHub
        { env with runBatch := fun b =>
            if b = Batch.initConfig then Except.error e else env.runBatch b } spec =
      CreateHub
        { env with runBatch := fun b =>
            if b = Batch.initConfig then Except.ok () else env.runBatch b } spec := by
  constructor
  · intro hnd hfl hib
    obtain ⟨fl, hfl'⟩ := Option.isSome_iff_exists.mp hfl
    simp [CreateHub, hnd, hfl', hib]
  · rfl

theorem spec2_C1_witness :
    CreateHub { envAllOk with initBuild := Except.error ("no passwords") } specSmall =
      (CreateResult.mk ("") [] true (some ("no passwords")), []) :=
  (spec2_C1 { envAllOk with initBuild := Except.error ("no passwords") } specSmall
    ("no passwords")).1 rfl (by decide) rfl

end BlackduckModel
